import Mathlib

/-
Verification of the BudBot irrigation system against its specification.

The repository contains several Arduino firmware sketches (src/arduino/arduino.ino
and the unnamed sketches part_000 .. part_002, which are variants of the same
firmware), a declarative configuration (src/raspi/gpio_control/app/config/settings.json)
and infrastructure files.  The control core described in the specification
(SafetyInterlock, NutrientMixer, DistributionController, SensorHub, config loader)
is not present under src/; those parts are modelled from the spec, and each such
definition carries a doc comment starting with "Modelled from the spec:".

Firmware embedding conventions:
  * Arduino `String` values are modelled as Lean `String`s; the Arduino string
    primitives (trim, startsWith, indexOf, substring, toInt) are re-implemented
    below over `String.toList` with the semantics of the Arduino core library
    (unsigned conversion of negative indices, substring argument swapping and
    clamping, atol-style parsing).
  * C integer types are modelled as Int/Nat with explicit wrap-around where a
    conversion occurs in the source: `unsigned long` (sendInterval, 32 bits) via
    `uint32`, `int` (pin values) via `int32`.  (On 16-bit AVR boards `int` is
    16 bits wide; no claim below depends on the width, since every theorem uses
    the same conversion on both sides.)
  * The parallel registry arrays sensorPins/sensorTypes/sensorIds are modelled
    as total functions `Nat → _` together with `sensorCount`, exactly as in the
    source; the in-place left-to-right shift loop of REMOVE_SENSOR is modelled
    by the fuel recursion `shiftArrAux` performing the same sequence of writes.
  * Serial output is modelled as a list of complete printed lines (consecutive
    `Serial.print` calls ending in `println` produce one line).
  * Hardware reads are an environment: `analogRead` as a function from pin to
    raw value, and DHT reads as an optional pair of already-rendered humidity
    and temperature strings (a float's only use in the source is to be rendered
    by `String(...)`; `none` models the NaN read error).
  * The `millis()`-driven periodic resend only emits output and never touches
    the registry or interval state, so command processing is modelled by the
    serial-command branch of `loop`.
-/

/-! ## C integer conversions -/

/-- Conversion to `unsigned long` (32-bit) as performed by C assignments. -/
def uint32 (i : Int) : Nat := (i % 4294967296).toNat

/-- Conversion to a 32-bit signed `int` as performed by C assignments. -/
def int32 (i : Int) : Int := (i + 2147483648) % 4294967296 - 2147483648

/-! ## Arduino String primitives -/

/-- Characters removed by `String::trim` / skipped by `atol` (C `isspace`). -/
def isSpaceChar (c : Char) : Bool :=
  c == ' ' || c == '\t' || c == '\n' || c == '\x0b' || c == '\x0c' || c == '\r'

/-- Arduino `String::trim`: strip leading and trailing whitespace. -/
def ardTrim (s : String) : String :=
  (((s.toList.dropWhile isSpaceChar).reverse.dropWhile isSpaceChar).reverse).asString

/-- Arduino `String::startsWith`. -/
def ardStartsWith (s p : String) : Bool :=
  p.toList.isPrefixOf s.toList

/-- Index of the first occurrence of `ch`, counting from `i`; `-1` if absent. -/
def ardIndexOfAux : List Char → Char → Nat → Int
  | [], _, _ => -1
  | c :: cs, ch, i => if c == ch then (i : Int) else ardIndexOfAux cs ch (i + 1)

/-- Arduino `String::indexOf(char)`. -/
def ardIndexOf (s : String) (ch : Char) : Int :=
  ardIndexOfAux s.toList ch 0

/-- Arduino `String::indexOf(char, fromIndex)`; `fromIndex` is an unsigned parameter. -/
def ardIndexOfFrom (s : String) (ch : Char) (fromIndex : Int) : Int :=
  let f := uint32 fromIndex
  if s.toList.length ≤ f then -1 else ardIndexOfAux (s.toList.drop f) ch f

/-- Arduino `String::substring(left, right)`: unsigned arguments, swapped when
out of order, clamped to the length; empty when `left` is past the end. -/
def ardSubstring (s : String) (l r : Int) : String :=
  let lo := min (uint32 l) (uint32 r)
  let hi := max (uint32 l) (uint32 r)
  let n := s.toList.length
  if n ≤ lo then "" else ((s.toList.drop lo).take (min hi n - lo)).asString

/-- Arduino `String::substring(left)` = `substring(left, length)`. -/
def ardSubstringFrom (s : String) (l : Int) : String :=
  ardSubstring s l (s.toList.length : Int)

/-- Digit-accumulating core of `atol`. -/
def digitsVal : List Char → Int → Int
  | [], acc => acc
  | c :: cs, acc =>
    if c.isDigit then digitsVal cs (acc * 10 + ((c.toNat : Int) - 48)) else acc

/-- Arduino `String::toInt` (C `atol`): skip whitespace, optional sign, leading
digits; `0` when no digit is present.  Overflow of C `long` is not reached by
any input considered here; call sites apply the C conversion of the assigned
variable (`uint32`/`int32`). -/
def ardToInt (s : String) : Int :=
  match s.toList.dropWhile isSpaceChar with
  | '-' :: rest => - digitsVal rest 0
  | '+' :: rest => digitsVal rest 0
  | rest => digitsVal rest 0

/-! ## Space-separated fields of a published line (used to state the message schema) -/

def fieldsAux : List Char → List Char → List (List Char)
  | [], cur => [cur.reverse]
  | c :: cs, cur => if c == ' ' then cur.reverse :: fieldsAux cs [] else fieldsAux cs (c :: cur)

/-- The space-separated fields of a line. -/
def lineFields (s : String) : List String :=
  (fieldsAux s.toList []).map List.asString

/-- Whether a token is a decimal integer literal. -/
def isIntToken (s : String) : Bool :=
  match s.toList with
  | [] => false
  | '-' :: ds => !ds.isEmpty && ds.all Char.isDigit
  | ds => ds.all Char.isDigit

/-- The message schema claimed for soil-moisture readings: a topic field equal
to "sensor/soil" ++ "_moisture", a sensor-id field, and exactly one integer
raw-value field. -/
def soilMsgForm (line : String) : Bool :=
  match lineFields line with
  | [t, _, v] => t == "sensor/soil_moisture" && isIntToken v
  | _ => false

/-! ## Command and log-line string constants of the firmware -/

def strGETDATA : String := "GET_DATA"
def strSETINTERVAL : String := "SET_INTERVAL"
def strADDSENSOR : String := "ADD_SENSOR"
def strREMOVESENSOR : String := "REMOVE_SENSOR"
def strCLEARALL : String := "CLEAR_ALL"
def strDht : String := "dht"
def strSpace : String := " "
def strDot : String := "."
def strSensorTopic : String := "sensor/"
def strLogPre : String := "arduino/logs "
def strLogGetData : String := "arduino/logs Received GET_DATA command"
def strLogSetIntervalA : String := "arduino/logs Set send interval to: "
def strErrInterval : String := "arduino/logs Error: Invalid interval value"
def strLogAddedA : String := "arduino/logs Added sensor: "
def strLogAddedB : String := " on pin: "
def strErrFull : String := "arduino/logs Error: Maximum number of sensors reached"
def strErrFormat : String := "arduino/logs Error: Invalid ADD_SENSOR command format"
def strLogRemovedA : String := "arduino/logs Removed sensor on pin: "
def strErrNoSensor : String := "arduino/logs Error: No sensor found on pin "
def strLogCleared : String := "arduino/logs Cleared all sensors and settings"
def strLogUnknown : String := "arduino/logs Unknown command: "
def strErrDhtRead : String := "arduino/logs Error reading from DHT sensor "
def strErrAnalogRead : String := "arduino/logs Error reading from analog sensor "
def strErrDhtTail : String := "Error reading from DHT sensor "
def strErrAnalogTail : String := "Error reading from analog sensor "
def strSoilTopicLine : String := "sensor/soil_moisture "

/-! ## Firmware state -/

/-- `const int maxSensors = 10;` -/
def maxSensors : Nat := 10

/-- One registered sensor, the record view of one index of the parallel arrays
sensorPins / sensorTypes / sensorIds. -/
structure Entry where
  pin : Int
  type : String
  id : String
deriving DecidableEq

/-- The firmware's global mutable state. -/
structure FwState where
  lastSendTime : Nat
  sendInterval : Nat
  sensorPins : Nat → Int
  sensorTypes : Nat → String
  sensorIds : Nat → String
  sensorCount : Nat

/-- Hardware environment of a sketch: raw analog reads by pin, and DHT reads by
pin returning rendered humidity/temperature strings (`none` = NaN read). -/
structure Env where
  analogRead : Int → Int
  dhtRead : Int → Option (String × String)

/-- Initial globals: `sendInterval = 5000`, `sensorPins[10] = {-1}` (first cell
-1, remaining cells value-initialised to 0), empty types/ids, count 0. -/
def initState : FwState :=
  { lastSendTime := 0
    sendInterval := 5000
    sensorPins := fun i => if i = 0 then -1 else 0
    sensorTypes := fun _ => ""
    sensorIds := fun _ => ""
    sensorCount := 0 }

/-- State produced by CLEAR_ALL: defaults restored, every array cell reset. -/
def clearState : FwState :=
  { lastSendTime := 0
    sendInterval := 5000
    sensorPins := fun _ => -1
    sensorTypes := fun _ => ""
    sensorIds := fun _ => ""
    sensorCount := 0 }

/-- The record view of registry index `i`. -/
def entryAt (s : FwState) (i : Nat) : Entry :=
  ⟨s.sensorPins i, s.sensorTypes i, s.sensorIds i⟩

/-- The window `[start, start+len)` of an array, as a list. -/
def winView {α : Type} (f : Nat → α) (start len : Nat) : List α :=
  (List.range len).map fun k => f (start + k)

/-- The visible registry: entries at indices `[0, sensorCount)`. -/
def readRegistry (s : FwState) : List Entry :=
  winView (entryAt s) 0 s.sensorCount

/-- The shift loop `for (j = i; j < stop; j++) a[j] = a[j+1];`, by fuel:
`shiftArrAux a j n` performs the writes for `j, j+1, ..., j+n-1`. -/
def shiftArrAux {α : Type} : (Nat → α) → Nat → Nat → (Nat → α)
  | a, _, 0 => a
  | a, j, n + 1 => shiftArrAux (Function.update a j (a (j + 1))) (j + 1) n

/-- The shift loop from `j` (inclusive) to `stop` (exclusive). -/
def shiftArr {α : Type} (a : Nat → α) (j stop : Nat) : Nat → α :=
  shiftArrAux a j (stop - j)

/-- Net state effect of removing the entry at index `i`: every array shifted
down from `i` over `[i, sensorCount-1)` and the count decremented. -/
def shiftState (s : FwState) (i : Nat) : FwState :=
  { s with
    sensorPins := shiftArr s.sensorPins i (s.sensorCount - 1)
    sensorTypes := shiftArr s.sensorTypes i (s.sensorCount - 1)
    sensorIds := shiftArr s.sensorIds i (s.sensorCount - 1)
    sensorCount := s.sensorCount - 1 }

/-- State effect of a successful ADD_SENSOR: write the three arrays at index
`sensorCount` and increment the count. -/
def addState (s : FwState) (e : Entry) : FwState :=
  { s with
    sensorPins := Function.update s.sensorPins s.sensorCount e.pin
    sensorTypes := Function.update s.sensorTypes s.sensorCount e.type
    sensorIds := Function.update s.sensorIds s.sensorCount e.id
    sensorCount := s.sensorCount + 1 }

/-- The REMOVE_SENSOR search loop `for (i = 0; i < sensorCount; i++) if
(sensorPins[i] == pin) { ...; break; }`, by fuel (`n = sensorCount - i`). -/
def findFromAux (s : FwState) (pin : Int) : Nat → Nat → Option Nat
  | _, 0 => none
  | i, n + 1 => if s.sensorPins i = pin then some i else findFromAux s pin (i + 1) n

/-- Index of the first registered sensor with the given pin, if any. -/
def findFrom (s : FwState) (pin : Int) : Option Nat :=
  findFromAux s pin 0 s.sensorCount

/-- Removal of the first list element satisfying `p` (specification-side view
of the shift loop). -/
def removeFirst (p : Entry → Bool) : List Entry → List Entry
  | [] => []
  | e :: es => if p e then es else e :: removeFirst p es

/-! ## Shared command parsing (identical text in all firmware variants) -/

/-- `command = Serial.readStringUntil; command.trim();` -/
def commandOf (line : String) : String := ardTrim line

/-- SET_INTERVAL argument: `command.substring(12).toInt()` assigned to an
`unsigned long`. -/
def intervalArg (command : String) : Nat :=
  uint32 (ardToInt (ardSubstringFrom command 12))

/-- REMOVE_SENSOR argument: `int pin = command.substring(13).toInt();` -/
def removePinArg (command : String) : Int :=
  int32 (ardToInt (ardSubstringFrom command 13))

/-! ## Firmware variant `src/arduino/arduino.ino` -/

namespace Ino

/-- `String params = command.substring(11);` -/
def addParams (command : String) : String := ardSubstringFrom command 11

/-- `int spaceIndex = params.indexOf(' ');` -/
def addSpace1 (command : String) : Int := ardIndexOf (addParams command) ' '

/-- `String typeAndId = params.substring(spaceIndex + 1);` -/
def typeAndId (command : String) : String :=
  ardSubstringFrom (addParams command) (addSpace1 command + 1)

/-- `int spaceIndex2 = typeAndId.indexOf(' ');` -/
def addSpace2 (command : String) : Int := ardIndexOf (typeAndId command) ' '

/-- The pin/type/id triple parsed by arduino.ino's ADD_SENSOR handler (no
well-formedness check: missing separators yield fallback substrings). -/
def addEntry (command : String) : Entry :=
  ⟨int32 (ardToInt (ardSubstring (addParams command) 0 (addSpace1 command))),
   ardSubstring (typeAndId command) 0 (addSpace2 command),
   ardSubstringFrom (typeAndId command) (addSpace2 command + 1)⟩

/-- arduino.ino `sendSensorData`: every registered sensor is published as
`sensor/<type> <id> <analogRead value>`, whatever its type. -/
def sendSensorData (env : Env) (s : FwState) : List String :=
  (List.range s.sensorCount).map fun i =>
    strSensorTopic ++ s.sensorTypes i ++ strSpace ++ s.sensorIds i ++ strSpace ++
      toString (env.analogRead (s.sensorPins i))

/-- arduino.ino REMOVE_SENSOR handler: shift down at the first matching index
and log; silently do nothing when no pin matches. -/
def removeSensor (s : FwState) (pin : Int) : FwState × List String :=
  match findFrom s pin with
  | some i => (shiftState s i, [strLogRemovedA ++ toString pin])
  | none => (s, [])

/-- The serial-command branch of arduino.ino's `loop` (the local variable
`command` of the source is the trimmed line, written `commandOf line` here). -/
def processCommand (env : Env) (s : FwState) (line : String) : FwState × List String :=
  if commandOf line = strGETDATA then
    (s, strLogGetData :: sendSensorData env s)
  else if ardStartsWith (commandOf line) strSETINTERVAL then
    ({ s with sendInterval := intervalArg (commandOf line) },
     [strLogSetIntervalA ++ toString (intervalArg (commandOf line)) ++ strDot])
  else if ardStartsWith (commandOf line) strADDSENSOR then
    ((if s.sensorCount < maxSensors then addState s (addEntry (commandOf line)) else s),
     [strLogAddedA ++ (addEntry (commandOf line)).type ++ strSpace ++
       (addEntry (commandOf line)).id ++ strLogAddedB ++
       toString (addEntry (commandOf line)).pin ++ strDot])
  else if ardStartsWith (commandOf line) strREMOVESENSOR then
    removeSensor s (removePinArg (commandOf line))
  else if commandOf line = strCLEARALL then
    (clearState, [strLogCleared])
  else
    (s, [])

/-- Specification-side registry semantics of one command: the successfully
added sensors, minus removed ones, cleared by CLEAR_ALL. -/
def listStep (l : List Entry) (line : String) : List Entry :=
  if commandOf line = strGETDATA then l
  else if ardStartsWith (commandOf line) strSETINTERVAL then l
  else if ardStartsWith (commandOf line) strADDSENSOR then
    (if l.length < maxSensors then l ++ [addEntry (commandOf line)] else l)
  else if ardStartsWith (commandOf line) strREMOVESENSOR then
    removeFirst (fun e => e.pin == removePinArg (commandOf line)) l
  else if commandOf line = strCLEARALL then []
  else l

/-- Processing a sequence of command lines from the initial state. -/
def runCommands (env : Env) (cmds : List String) : FwState :=
  cmds.foldl (fun st c => (processCommand env st c).1) initState

end Ino

/-! ## Firmware variant `src/unnamed/part_001` (DHT support and error handling) -/

namespace V1

/-- `String params = command.substring(11);` -/
def addParams (command : String) : String := ardSubstringFrom command 11

/-- `int spaceIndex = params.indexOf(' ');` -/
def addSpace1 (command : String) : Int := ardIndexOf (addParams command) ' '

/-- `int spaceIndex2 = params.indexOf(' ', spaceIndex + 1);` -/
def addSpace2 (command : String) : Int :=
  ardIndexOfFrom (addParams command) ' ' (addSpace1 command + 1)

/-- `spaceIndex != -1 && spaceIndex2 != -1` -/
def addWellFormed (command : String) : Bool :=
  addSpace1 command != -1 && addSpace2 command != -1

/-- The pin/type/id triple parsed by part_001's ADD_SENSOR handler. -/
def addEntry (command : String) : Entry :=
  ⟨int32 (ardToInt (ardSubstring (addParams command) 0 (addSpace1 command))),
   ardSubstring (addParams command) (addSpace1 command + 1) (addSpace2 command),
   ardSubstringFrom (addParams command) (addSpace2 command + 1)⟩

/-- The single line printed for sensor `i` by part_001's `sendSensorData`: a
DHT sensor publishes id, humidity and temperature (or an error log on NaN); any
other sensor publishes id and one raw analog value (or an error log on -1). -/
def sensorLine (env : Env) (s : FwState) (i : Nat) : String :=
  if s.sensorTypes i = strDht then
    match env.dhtRead (s.sensorPins i) with
    | none => strErrDhtRead ++ s.sensorIds i
    | some (hu, te) =>
      strSensorTopic ++ s.sensorTypes i ++ strSpace ++ s.sensorIds i ++ strSpace ++
        hu ++ strSpace ++ te
  else
    if env.analogRead (s.sensorPins i) = -1 then
      strErrAnalogRead ++ s.sensorIds i
    else
      strSensorTopic ++ s.sensorTypes i ++ strSpace ++ s.sensorIds i ++ strSpace ++
        toString (env.analogRead (s.sensorPins i))

/-- part_001 `sendSensorData`. -/
def sendSensorData (env : Env) (s : FwState) : List String :=
  (List.range s.sensorCount).map (sensorLine env s)

/-- part_001 REMOVE_SENSOR handler: like arduino.ino's, but an error line is
printed when no registered sensor has the pin. -/
def removeSensor (s : FwState) (pin : Int) : FwState × List String :=
  match findFrom s pin with
  | some i => (shiftState s i, [strLogRemovedA ++ toString pin])
  | none => (s, [strErrNoSensor ++ toString pin])

/-- The serial-command branch of part_001's `loop`. -/
def processCommand (env : Env) (s : FwState) (line : String) : FwState × List String :=
  if commandOf line = strGETDATA then
    (s, strLogGetData :: sendSensorData env s)
  else if ardStartsWith (commandOf line) strSETINTERVAL then
    (if 0 < intervalArg (commandOf line) then
      ({ s with sendInterval := intervalArg (commandOf line) },
       [strLogSetIntervalA ++ toString (intervalArg (commandOf line))])
    else (s, [strErrInterval]))
  else if ardStartsWith (commandOf line) strADDSENSOR then
    (if addWellFormed (commandOf line) then
      (if s.sensorCount < maxSensors then
        (addState s (addEntry (commandOf line)),
         [strLogAddedA ++ (addEntry (commandOf line)).type ++ strSpace ++
           (addEntry (commandOf line)).id ++ strLogAddedB ++
           toString (addEntry (commandOf line)).pin])
      else (s, [strErrFull]))
    else (s, [strErrFormat]))
  else if ardStartsWith (commandOf line) strREMOVESENSOR then
    removeSensor s (removePinArg (commandOf line))
  else if commandOf line = strCLEARALL then
    (clearState, [strLogCleared])
  else
    (s, [strLogUnknown ++ commandOf line])

end V1

/-! ## Firmware variant `src/unnamed/part_000` (single fixed soil sensor) -/

namespace V0

/-- Analog pin A0 (Uno numbering). -/
def pinA0 : Int := 14

/-- part_000 `sendSensorData`: one line, topic and raw value, no sensor id. -/
def sendSensorData (env : Env) : List String :=
  [strSoilTopicLine ++ toString (env.analogRead pinA0)]

end V0

/-! ## SafetyInterlock and DistributionController (spec-modelled) -/

/-- Modelled from the spec: the fill-level/abort state read by SafetyInterlock
(§3, §4.2); the control core holding it is not under src/. -/
structure SafetyState where
  mixer_full : Bool
  abort_mode : Bool

/-- Modelled from the spec: `canDistribute() -> bool` requires
`mixer_full == true` and `abort_mode == false` (§4.2). -/
def canDistribute (st : SafetyState) : Bool :=
  st.mixer_full && !st.abort_mode

/-- Modelled from the spec: the per-plant pump binding of a Batch (§3, §4.4). -/
structure PlantPump where
  plant_id : String
  water_pump_id : String
deriving DecidableEq

/-- Modelled from the spec: DistributionController.distribute (§4.4) with the
re-check rule of §4.2/§5 — the interlock is consulted before every actuation
step, not cached; `env k` is the safety state observed before step `k`.  Each
performed actuation is recorded as (step index, pump id); on a failed check the
in-flight batch is cancelled (§3 AbortMode). -/
def distributeFrom (env : Nat → SafetyState) : Nat → List PlantPump → List (Nat × String)
  | _, [] => []
  | k, p :: ps =>
    if canDistribute (env k) then (k, p.water_pump_id) :: distributeFrom env (k + 1) ps
    else []

/-- Modelled from the spec: a full distribution run over the batch's plants. -/
def distribute (env : Nat → SafetyState) (plants : List PlantPump) : List (Nat × String) :=
  distributeFrom env 0 plants

/-! ## Plant configuration and loader (spec-modelled data, shipped values from
`src/raspi/gpio_control/app/config/settings.json`) -/

/-- Watering thresholds of a plant (settings.json `watering_threshold`). -/
structure WateringThreshold where
  start_watering : ℚ
  stop_watering : ℚ
deriving DecidableEq

/-- A plant binding as in settings.json `plants`. -/
structure PlantCfg where
  moisture_sensor_id : String
  water_pump_id : String
  threshold : WateringThreshold
deriving DecidableEq

/-- The load-time validation: every plant satisfies
`start_watering < stop_watering`. -/
def validPlants (ps : List (String × PlantCfg)) : Bool :=
  ps.all fun p => decide (p.2.threshold.start_watering < p.2.threshold.stop_watering)

/-- Modelled from the spec: the configuration loader (not under src/) rejects a
violating candidate configuration and retains the previous one (§3, §7
ConfigError). -/
def loadPlants (current candidate : List (String × PlantCfg)) : List (String × PlantCfg) :=
  if validPlants candidate then candidate else current

/-- The `plants` section shipped in settings.json. -/
def shippedPlants : List (String × PlantCfg) :=
  [("plant_1", { moisture_sensor_id := "soil_moisture_0", water_pump_id := "pump_1",
                 threshold := { start_watering := 55, stop_watering := 70 } }),
   ("plant_2", { moisture_sensor_id := "soil_moisture_1", water_pump_id := "pump_2",
                 threshold := { start_watering := 55, stop_watering := 70 } }),
   ("plant_3", { moisture_sensor_id := "soil_moisture_2", water_pump_id := "pump_3",
                 threshold := { start_watering := 55, stop_watering := 70 } }),
   ("plant_4", { moisture_sensor_id := "soil_moisture_3", water_pump_id := "pump_4",
                 threshold := { start_watering := 55, stop_watering := 70 } })]

/-! ## Sensor calibration (spec-modelled mapping, shipped values from settings.json) -/

/-- Per-sensor calibration as in settings.json `sensor_hub.sensors.*.configuration`. -/
structure SensorCalibration where
  dry_value : ℚ
  wet_value : ℚ
deriving DecidableEq

/-- Modelled from the spec: SensorHub.latestMoisture's calibration mapping
(§3, §4.1; SensorHub is not under src/): linear interpolation sending
`dry_value` to 0% and `wet_value` to 100%, clamped to [0, 100]. -/
def moisturePercent (cal : SensorCalibration) (raw : ℚ) : ℚ :=
  max 0 (min 100 ((cal.dry_value - raw) / (cal.dry_value - cal.wet_value) * 100))

/-- The calibrations of the five shipped soil-moisture sensors. -/
def shippedCalibrations : List SensorCalibration :=
  [⟨570, 253⟩, ⟨572, 258⟩, ⟨561, 243⟩, ⟨582, 246⟩, ⟨570, 250⟩]

/-! ## Shipped water/nutrient configuration (settings.json `water_nutrient`) -/

namespace Config

def green_flow_rate : ℚ := 0.5
def red_flow_rate : ℚ := 0.5
def yellow_flow_rate : ℚ := 0.5
def water_pump_flow_rate : ℚ := 20
def pump_1_flow_rate : ℚ := 30
def nutrient_green : ℚ := 50
def nutrient_red : ℚ := 30
def nutrient_yellow : ℚ := 20
def total_water_ml : ℚ := 3000
def ml_per_plant : ℚ := 10

end Config

/-- Modelled from the spec: actuation duration = amount / flow_rate (§4.3, §4.4). -/
def actuationDuration (amount flow : ℚ) : ℚ := amount / flow

/-- Modelled from the spec: the actuation sequence of one shipped batch for one
plant on pump_1 (§4.3 water fill then sequential green/red/yellow dosing, §4.4
distribution), with the amounts and flow rates of settings.json. -/
def shippedBatchSequence : List (String × ℚ) :=
  [("water", actuationDuration Config.total_water_ml Config.water_pump_flow_rate),
   ("green", actuationDuration Config.nutrient_green Config.green_flow_rate),
   ("red", actuationDuration Config.nutrient_red Config.red_flow_rate),
   ("yellow", actuationDuration Config.nutrient_yellow Config.yellow_flow_rate),
   ("pump_1", actuationDuration Config.ml_per_plant Config.pump_1_flow_rate)]

/-! ## Concrete inputs used by witnesses and counterexamples -/

def env0 : Env := ⟨fun _ => 0, fun _ => none⟩
def env345 : Env := ⟨fun _ => 345, fun _ => none⟩
def envAllOk : Nat → SafetyState := fun _ => ⟨true, false⟩
def cmdSetNeg5 : String := "SET_INTERVAL -5"
def cmdAdd5 : String := "ADD_SENSOR 5"
def cmdAddGood : String := "ADD_SENSOR 7 soil_moisture s7"
def cmdRemove7 : String := "REMOVE_SENSOR 7"
def strSoil : String := "soil_moisture"
def strS0 : String := "s0"
def strPump1 : String := "pump_1"
def witBadLine : String := "sensor/soil_moisture 345"
def witGoodLine : String := "sensor/soil_moisture s0 345"

/-- A state with one registered soil-moisture sensor on pin 3. -/
def sampleState : FwState :=
  { lastSendTime := 0
    sendInterval := 5000
    sensorPins := fun _ => 3
    sensorTypes := fun _ => strSoil
    sensorIds := fun _ => strS0
    sensorCount := 1 }

def samplePlants : List PlantPump := [⟨"plant_1", "pump_1"⟩]

def badCandidateCfg : List (String × PlantCfg) :=
  [("plant_x", { moisture_sensor_id := "soil_moisture_9", water_pump_id := "pump_9",
                 threshold := { start_watering := 80, stop_watering := 20 } })]

/-! ## Window-view lemmas -/

lemma winView_zero {α : Type} (f : Nat → α) (start : Nat) : winView f start 0 = [] := rfl

lemma winView_succ_left {α : Type} (f : Nat → α) (start n : Nat) :
    winView f start (n + 1) = f start :: winView f (start + 1) n := by
  unfold winView
  rw [List.range_succ_eq_map]
  simp only [List.map_cons, Nat.add_zero, List.map_map]
  have h : (List.range n).map ((fun k => f (start + k)) ∘ Nat.succ) =
      (List.range n).map fun k => f (start + 1 + k) := by
    apply List.map_congr_left
    intro k _
    simp only [Function.comp_apply]
    congr 1
    omega
  rw [h]

lemma winView_succ_right {α : Type} (f : Nat → α) (start n : Nat) :
    winView f start (n + 1) = winView f start n ++ [f (start + n)] := by
  unfold winView
  rw [List.range_succ]
  simp

lemma winView_add {α : Type} (f : Nat → α) (start a b : Nat) :
    winView f start (a + b) = winView f start a ++ winView f (start + a) b := by
  induction b with
  | zero => simp [winView_zero]
  | succ b ih =>
      have h1 : a + (b + 1) = (a + b) + 1 := by omega
      have h2 : start + (a + b) = (start + a) + b := by omega
      rw [h1, winView_succ_right, ih, h2, List.append_assoc, ← winView_succ_right]

lemma winView_congr {α : Type} (f g : Nat → α) (s1 s2 len : Nat)
    (h : ∀ k, k < len → f (s1 + k) = g (s2 + k)) :
    winView f s1 len = winView g s2 len := by
  unfold winView
  apply List.map_congr_left
  intro k hk
  exact h k (List.mem_range.mp hk)

/-! ## Shift-loop lemmas -/

lemma shiftArrAux_eval {α : Type} :
    ∀ (n : Nat) (a : Nat → α) (j k : Nat),
      shiftArrAux a j n k = if j ≤ k ∧ k < j + n then a (k + 1) else a k := by
  intro n
  induction n with
  | zero =>
      intro a j k
      simp only [shiftArrAux]
      rw [if_neg (by omega)]
  | succ n ih =>
      intro a j k
      simp only [shiftArrAux]
      rw [ih]
      by_cases h1 : j + 1 ≤ k ∧ k < j + 1 + n
      · rw [if_pos h1, if_pos (by omega), Function.update_noteq (by omega)]
      · rw [if_neg h1]
        by_cases h2 : k = j
        · subst h2
          rw [Function.update_same, if_pos (by omega)]
        · rw [Function.update_noteq h2, if_neg (by omega)]

lemma shiftArr_eval {α : Type} (a : Nat → α) (j stop k : Nat) :
    shiftArr a j stop k = if j ≤ k ∧ k < stop then a (k + 1) else a k := by
  unfold shiftArr
  rw [shiftArrAux_eval]
  by_cases h : j ≤ stop
  · rw [show j + (stop - j) = stop by omega]
  · rw [if_neg (by omega), if_neg (by omega)]

lemma entryAt_shiftState (s : FwState) (i k : Nat) :
    entryAt (shiftState s i) k =
      if i ≤ k ∧ k < s.sensorCount - 1 then entryAt s (k + 1) else entryAt s k := by
  by_cases h : i ≤ k ∧ k < s.sensorCount - 1 <;>
    simp [entryAt, shiftState, shiftArr_eval, h]

/-! ## Registry lemmas -/

lemma readRegistry_eq_winView (s : FwState) :
    readRegistry s = winView (entryAt s) 0 s.sensorCount := rfl

lemma length_readRegistry (s : FwState) : (readRegistry s).length = s.sensorCount := by
  simp [readRegistry, winView]

lemma entryAt_mem_readRegistry (s : FwState) (j : Nat) (hj : j < s.sensorCount) :
    entryAt s j ∈ readRegistry s := by
  rw [readRegistry_eq_winView]
  unfold winView
  refine List.mem_map.mpr ⟨j, List.mem_range.mpr hj, ?_⟩
  rw [Nat.zero_add]

lemma readRegistry_addState (s : FwState) (e : Entry) :
    readRegistry (addState s e) = readRegistry s ++ [e] := by
  have hc : (addState s e).sensorCount = s.sensorCount + 1 := rfl
  rw [readRegistry_eq_winView, readRegistry_eq_winView, hc, winView_succ_right]
  congr 1
  · apply winView_congr
    intro k hk
    have hne : k ≠ s.sensorCount := by omega
    simp [entryAt, addState, Function.update_noteq hne]
  · simp [entryAt, addState, Function.update_same]

lemma shift_registry (s : FwState) (i n : Nat) (h : i + n + 1 = s.sensorCount) :
    readRegistry (shiftState s i) =
      winView (entryAt s) 0 i ++ winView (entryAt s) (i + 1) n := by
  have hc : (shiftState s i).sensorCount = i + n := by
    simp [shiftState]; omega
  have h1 : winView (entryAt (shiftState s i)) 0 i = winView (entryAt s) 0 i := by
    apply winView_congr
    intro k hk
    rw [entryAt_shiftState, if_neg (by omega)]
  have h2 : winView (entryAt (shiftState s i)) (0 + i) n =
      winView (entryAt s) (i + 1) n := by
    apply winView_congr
    intro k hk
    rw [entryAt_shiftState, if_pos (by omega)]
    congr 1
    omega
  rw [readRegistry_eq_winView, hc, winView_add, h1, h2]

/-! ## removeFirst lemmas -/

lemma removeFirst_cons_pos {p : Entry → Bool} {e : Entry} {l : List Entry}
    (h : p e = true) : removeFirst p (e :: l) = l := by
  simp [removeFirst, h]

lemma removeFirst_cons_neg {p : Entry → Bool} {e : Entry} {l : List Entry}
    (h : p e = false) : removeFirst p (e :: l) = e :: removeFirst p l := by
  simp [removeFirst, h]

lemma removeFirst_length_le (p : Entry → Bool) (l : List Entry) :
    (removeFirst p l).length ≤ l.length := by
  induction l with
  | nil => simp [removeFirst]
  | cons e es ih =>
      by_cases h : p e
      · rw [removeFirst_cons_pos h]
        simp
      · rw [removeFirst_cons_neg (by simp [h])]
        simp only [List.length_cons]
        omega

/-! ## The REMOVE_SENSOR loop computes removeFirst on the registry -/

lemma findFromAux_registry (s : FwState) (pin : Int) :
    ∀ (n i : Nat), i + n = s.sensorCount →
      readRegistry (match findFromAux s pin i n with
                    | some m => shiftState s m
                    | none => s) =
        winView (entryAt s) 0 i ++
          removeFirst (fun e => e.pin == pin) (winView (entryAt s) i n) := by
  intro n
  induction n with
  | zero =>
      intro i hi
      simp only [findFromAux, winView_zero, removeFirst, List.append_nil]
      rw [readRegistry_eq_winView]
      congr 1
      omega
  | succ n ih =>
      intro i hi
      by_cases hp : s.sensorPins i = pin
      · simp only [findFromAux, if_pos hp]
        have hpe : (fun e => e.pin == pin) (entryAt s i) = true := by
          simp [entryAt, hp]
        rw [winView_succ_left, removeFirst_cons_pos hpe]
        exact shift_registry s i n (by omega)
      · simp only [findFromAux, if_neg hp]
        have hpe : (fun e => e.pin == pin) (entryAt s i) = false := by
          simp [entryAt, hp]
        rw [winView_succ_left, removeFirst_cons_neg hpe, ih (i + 1) (by omega),
          winView_succ_right]
        simp [List.append_assoc]

lemma remove_registry_core (s : FwState) (pin : Int) :
    readRegistry (match findFrom s pin with
                  | some i => shiftState s i
                  | none => s) =
      removeFirst (fun e => e.pin == pin) (readRegistry s) := by
  have h := findFromAux_registry s pin s.sensorCount 0 (by omega)
  rw [findFrom]
  rw [h, winView_zero, List.nil_append, ← readRegistry_eq_winView]

lemma removeSensor_fst_Ino (s : FwState) (pin : Int) :
    (Ino.removeSensor s pin).1 =
      (match findFrom s pin with | some i => shiftState s i | none => s) := by
  unfold Ino.removeSensor
  cases h : findFrom s pin <;> simp

lemma removeSensor_fst_V1 (s : FwState) (pin : Int) :
    (V1.removeSensor s pin).1 =
      (match findFrom s pin with | some i => shiftState s i | none => s) := by
  unfold V1.removeSensor
  cases h : findFrom s pin <;> simp

lemma findFromAux_none (s : FwState) (pin : Int) :
    ∀ (n i : Nat), i + n = s.sensorCount →
      (∀ j, j < s.sensorCount → s.sensorPins j ≠ pin) →
      findFromAux s pin i n = none := by
  intro n
  induction n with
  | zero =>
      intro i _ _
      simp [findFromAux]
  | succ n ih =>
      intro i hi hall
      have hne : s.sensorPins i ≠ pin := hall i (by omega)
      simp only [findFromAux, if_neg hne]
      exact ih (i + 1) (by omega) hall

/-! ## Dispatcher branch-discrimination lemmas -/

lemma startsWith_headChar (c p : String) (h : ardStartsWith c p = true) :
    p.toList.head? = none ∨ c.toList.head? = p.toList.head? := by
  unfold ardStartsWith at h
  cases hp : p.toList with
  | nil => exact Or.inl rfl
  | cons ch tl =>
      cases hc : c.toList with
      | nil =>
          rw [hp, hc] at h
          simp [List.isPrefixOf] at h
      | cons ch2 tl2 =>
          rw [hp, hc] at h
          simp only [List.isPrefixOf, Bool.and_eq_true, beq_iff_eq] at h
          right
          simp [h.1]

lemma startsWith_head_ne (c p q : String) (hp : p.toList.head? ≠ none)
    (hq : q.toList.head? ≠ none) (hpq : p.toList.head? ≠ q.toList.head?)
    (h : ardStartsWith c p = true) : ardStartsWith c q = false := by
  cases hcq : ardStartsWith c q with
  | false => rfl
  | true =>
      rcases startsWith_headChar c p h with h1 | h1
      · exact absurd h1 hp
      · rcases startsWith_headChar c q hcq with h2 | h2
        · exact absurd h2 hq
        · exact absurd (h1.symm.trans h2) hpq

/-! ## String append associativity (used to expose the log-line shape) -/

lemma strAppend_assoc (a b c : String) : a ++ b ++ c = a ++ (b ++ c) := by
  apply String.ext
  simp [List.append_assoc]

/-! ## Registry refinement for arduino.ino command processing -/

lemma ino_step_registry (env : Env) (s : FwState) (line : String) :
    readRegistry (Ino.processCommand env s line).1 = Ino.listStep (readRegistry s) line := by
  unfold Ino.processCommand Ino.listStep
  rw [length_readRegistry]
  split_ifs with h1 h2 h3 h4 h5 h6
  · rfl
  · rfl
  · exact readRegistry_addState s (Ino.addEntry (commandOf line))
  · rfl
  · rw [removeSensor_fst_Ino]
    exact remove_registry_core s (removePinArg (commandOf line))
  · rfl
  · rfl

lemma listStep_length (l : List Entry) (line : String) (h : l.length ≤ maxSensors) :
    (Ino.listStep l line).length ≤ maxSensors := by
  unfold Ino.listStep
  split_ifs with h1 h2 h3 h4 h5 h6
  · exact h
  · exact h
  · simp only [List.length_append, List.length_cons, List.length_nil]
    omega
  · exact h
  · exact le_trans (removeFirst_length_le _ _) h
  · simp [maxSensors]
  · exact h

lemma ino_run_aux (env : Env) :
    ∀ (cmds : List String) (s : FwState), s.sensorCount ≤ maxSensors →
      (cmds.foldl (fun st c => (Ino.processCommand env st c).1) s).sensorCount ≤ maxSensors ∧
      readRegistry (cmds.foldl (fun st c => (Ino.processCommand env st c).1) s) =
        cmds.foldl Ino.listStep (readRegistry s) := by
  intro cmds
  induction cmds with
  | nil => intro s hs; exact ⟨hs, rfl⟩
  | cons c cs ih =>
      intro s hs
      simp only [List.foldl_cons]
      have hstep := ino_step_registry env s c
      have hlen : ((Ino.processCommand env s c).1).sensorCount ≤ maxSensors := by
        rw [← length_readRegistry, hstep]
        exact listStep_length _ _ (by rw [length_readRegistry]; exact hs)
      obtain ⟨ha, hb⟩ := ih (Ino.processCommand env s c).1 hlen
      exact ⟨ha, by rw [hb, hstep]⟩

/-! ## Distribution interlock support -/

lemma distributeFrom_mem (env : Nat → SafetyState) :
    ∀ (plants : List PlantPump) (k0 k : Nat) (pid : String),
      (k, pid) ∈ distributeFrom env k0 plants → canDistribute (env k) = true := by
  intro plants
  induction plants with
  | nil =>
      intro k0 k pid h
      simp [distributeFrom] at h
  | cons p ps ih =>
      intro k0 k pid h
      by_cases hc : canDistribute (env k0) = true
      · rw [distributeFrom, if_pos hc] at h
        rcases List.mem_cons.mp h with he | ht
        · injection he with hk _
          rw [hk]
          exact hc
        · exact ih (k0 + 1) k pid ht
      · rw [distributeFrom, if_neg hc] at h
        simp at h

/-! ## Configuration loader support -/

lemma foldl_loadPlants_valid :
    ∀ (cands : List (List (String × PlantCfg))) (init : List (String × PlantCfg)),
      validPlants init = true → validPlants (cands.foldl loadPlants init) = true := by
  intro cands
  induction cands with
  | nil => intro init h; exact h
  | cons c cs ih =>
      intro init h
      simp only [List.foldl_cons]
      apply ih
      unfold loadPlants
      split_ifs with hc
      · exact hc
      · exact h

/-! ## Claim theorems -/

/-- Claim C1: no distribution pump is actuated unless `mixer_full` is true and
`abort_mode` is false.  `distribute` re-evaluates `canDistribute` on the safety
state observed before each actuation step (`env k`), so every recorded
actuation `(k, pid)` certifies that the interlock held at that very step —
authorization is not cached across steps. -/
theorem distribution_interlock (env : Nat → SafetyState) (plants : List PlantPump)
    (k : Nat) (pid : String) (h : (k, pid) ∈ distribute env plants) :
    (env k).mixer_full = true ∧ (env k).abort_mode = false := by
  have hc := distributeFrom_mem env plants 0 k pid h
  unfold canDistribute at hc
  simp only [Bool.and_eq_true, Bool.not_eq_true'] at hc
  exact hc

/-- Witness for C1: a concrete one-plant batch under a permissive safety trace. -/
theorem distribution_interlock_witness :
    ((0, strPump1) ∈ distribute envAllOk samplePlants) ∧
    ((envAllOk 0).mixer_full = true ∧ (envAllOk 0).abort_mode = false) :=
  ⟨by decide, distribution_interlock envAllOk samplePlants 0 strPump1 (by decide)⟩

/-- Claim C2: every plant of a loaded configuration satisfies
`start_watering < stop_watering`; a violating candidate is rejected and the
previous configuration retained, so the invariant survives any sequence of
load/reload attempts; the shipped settings.json plants satisfy it. -/
theorem plants_config_invariant (init : List (String × PlantCfg))
    (h : validPlants init = true) (cands : List (List (String × PlantCfg))) :
    (∀ p ∈ cands.foldl loadPlants init,
        p.2.threshold.start_watering < p.2.threshold.stop_watering) ∧
    (∀ cur cand, validPlants cand = false → loadPlants cur cand = cur) ∧
    validPlants shippedPlants = true := by
  refine ⟨?_, ?_, by decide⟩
  · intro p hp
    have hv := foldl_loadPlants_valid cands init h
    have := List.all_eq_true.mp hv p hp
    exact of_decide_eq_true this
  · intro cur cand hc
    unfold loadPlants
    rw [if_neg (by simp [hc])]

/-- Witness for C2: the shipped configuration is valid, and loading an invalid
candidate on top of it keeps every plant within the invariant. -/
theorem plants_config_invariant_witness :
    validPlants shippedPlants = true ∧
    ((∀ p ∈ [badCandidateCfg].foldl loadPlants shippedPlants,
        p.2.threshold.start_watering < p.2.threshold.stop_watering) ∧
     (∀ cur cand, validPlants cand = false → loadPlants cur cand = cur) ∧
     validPlants shippedPlants = true) :=
  ⟨by decide, plants_config_invariant shippedPlants (by decide) [badCandidateCfg]⟩

/-- Claim C9: starting from the initial firmware state, any sequence of command
lines keeps `0 ≤ sensorCount ≤ maxSensors`, and the visible registry is exactly
the fold of the specification-level list semantics (successfully added sensors,
in order, minus removed ones, cleared by CLEAR_ALL). -/
theorem firmware_registry_invariant (env : Env) (cmds : List String) :
    0 ≤ (Ino.runCommands env cmds).sensorCount ∧
    (Ino.runCommands env cmds).sensorCount ≤ maxSensors ∧
    readRegistry (Ino.runCommands env cmds) = cmds.foldl Ino.listStep [] := by
  have h := ino_run_aux env cmds initState (by decide)
  exact ⟨Nat.zero_le _, h.1, h.2⟩

/-- Claim C10: the REMOVE_SENSOR handler removes exactly the first (lowest
index) registered sensor whose pin matches, shifting later entries down: the
resulting registry is `removeFirst` of the previous one.  Hence at most one
entry is removed per command, the relative order of all remaining sensors is
preserved, and when several sensors share the pin the later-added ones stay. -/
theorem remove_sensor_first_match (s : FwState) (pin : Int) :
    readRegistry (Ino.removeSensor s pin).1 =
      removeFirst (fun e => e.pin == pin) (readRegistry s) := by
  rw [removeSensor_fst_Ino]
  exact remove_registry_core s pin

/-- Claim C8: with the shipped settings.json values, the actuation durations
amount / flow_rate are 150 s (water fill), then 100 s, 60 s, 40 s for the
green, red and yellow doses, then 1/3 s (= 10/30) on pump_1. -/
theorem shipped_batch_durations :
    shippedBatchSequence =
      [("water", 150), ("green", 100), ("red", 60), ("yellow", 40), ("pump_1", 1/3)] := by
  norm_num [shippedBatchSequence, actuationDuration, Config.total_water_ml,
    Config.water_pump_flow_rate, Config.nutrient_green, Config.green_flow_rate,
    Config.nutrient_red, Config.red_flow_rate, Config.nutrient_yellow,
    Config.yellow_flow_rate, Config.ml_per_plant, Config.pump_1_flow_rate]

/-- Claim C7: for every shipped soil-moisture calibration, `moisturePercent`
stays in [0, 100], maps `dry_value` to 0% and `wet_value` to 100%, and agrees
with the unclamped linear interpolation whenever that value lies in [0, 100]. -/
theorem moisture_calibration_clamped (cal : SensorCalibration)
    (hmem : cal ∈ shippedCalibrations) (raw : ℚ) :
    0 ≤ moisturePercent cal raw ∧ moisturePercent cal raw ≤ 100 ∧
    moisturePercent cal cal.dry_value = 0 ∧
    moisturePercent cal cal.wet_value = 100 ∧
    (0 ≤ (cal.dry_value - raw) / (cal.dry_value - cal.wet_value) * 100 →
     (cal.dry_value - raw) / (cal.dry_value - cal.wet_value) * 100 ≤ 100 →
     moisturePercent cal raw =
       (cal.dry_value - raw) / (cal.dry_value - cal.wet_value) * 100) := by
  have hlt : cal.wet_value < cal.dry_value := by
    fin_cases hmem <;> norm_num
  have hne : cal.dry_value - cal.wet_value ≠ 0 :=
    sub_ne_zero.mpr (ne_of_gt hlt)
  refine ⟨le_max_left 0 _, max_le (by norm_num) (min_le_left _ _), ?_, ?_, ?_⟩
  · unfold moisturePercent
    rw [sub_self, zero_div, zero_mul, min_eq_right (by norm_num : (0:ℚ) ≤ 100), max_self]
  · unfold moisturePercent
    rw [div_self hne, one_mul, min_self, max_eq_right (by norm_num : (0:ℚ) ≤ 100)]
  · intro h1 h2
    unfold moisturePercent
    rw [min_eq_right h2, max_eq_right h1]

/-- Witness for C7: the calibration of soil_moisture_0 at raw reading 411. -/
theorem moisture_calibration_clamped_witness :
    ((⟨570, 253⟩ : SensorCalibration) ∈ shippedCalibrations) ∧
    (0 ≤ moisturePercent ⟨570, 253⟩ 411 ∧ moisturePercent ⟨570, 253⟩ 411 ≤ 100 ∧
     moisturePercent ⟨570, 253⟩ 570 = 0 ∧
     moisturePercent ⟨570, 253⟩ 253 = 100 ∧
     (0 ≤ ((570 : ℚ) - 411) / (570 - 253) * 100 →
      ((570 : ℚ) - 411) / (570 - 253) * 100 ≤ 100 →
      moisturePercent ⟨570, 253⟩ 411 = ((570 : ℚ) - 411) / (570 - 253) * 100)) :=
  ⟨List.mem_cons_self _ _, moisture_calibration_clamped ⟨570, 253⟩ (List.mem_cons_self _ _) 411⟩

/-- Claim C3 (code bug): SET_INTERVAL with a non-positive argument is not
always rejected.  In part_001 the parsed value is assigned to an
`unsigned long` before the `> 0` validity check, so `SET_INTERVAL -5` wraps to
4294967291, passes the check meant to reject invalid intervals, is stored, and
a success log line is printed; arduino.ino stores the converted value with no
check at all. -/
theorem set_interval_negative_accepted :
    (V1.processCommand env0 initState cmdSetNeg5).1.sendInterval = 4294967291 ∧
    (V1.processCommand env0 initState cmdSetNeg5).2 =
      ["arduino/logs Set send interval to: 4294967291"] ∧
    (Ino.processCommand env0 initState cmdSetNeg5).1.sendInterval = 4294967291 := by
  exact ⟨rfl, rfl, rfl⟩

/-- Counterexample to C4 as stated: in arduino.ino, the malformed command
ADD_SENSOR 5 (missing the type and id fields, so part_001's well-formedness
check rejects it) still registers an entry — sensorCount goes from 0 to 1 and
the fallback-parsed entry (pin 5, type and id both the text of the pin field)
is stored. -/
theorem ino_add_malformed_counterexample :
    V1.addWellFormed (commandOf cmdAdd5) = false ∧
    (Ino.processCommand env0 initState cmdAdd5).1.sensorCount = 1 ∧
    readRegistry (Ino.processCommand env0 initState cmdAdd5).1 = [⟨5, "5", "5"⟩] := by
  decide

/-- Claim C4 amended (part_001): a sensor is registered iff the command is
well-formed (both separators present) and the registry holds fewer than 10
sensors; otherwise the state is unchanged and an error log line (bad format or
registry full) is the only output. -/
theorem v1_add_sensor_guarded (env : Env) (s : FwState) (line : String)
    (h : ardStartsWith (commandOf line) strADDSENSOR = true) :
    (V1.addWellFormed (commandOf line) = true ∧ s.sensorCount < maxSensors →
      (V1.processCommand env s line).1.sensorCount = s.sensorCount + 1 ∧
      readRegistry (V1.processCommand env s line).1 =
        readRegistry s ++ [V1.addEntry (commandOf line)]) ∧
    (V1.addWellFormed (commandOf line) = false ∨ maxSensors ≤ s.sensorCount →
      (V1.processCommand env s line).1 = s ∧
      ((V1.processCommand env s line).2 = [strErrFormat] ∨
       (V1.processCommand env s line).2 = [strErrFull])) := by
  have hne1 : ¬(commandOf line = strGETDATA) := by
    intro he
    rw [he] at h
    exact absurd h (by decide)
  have hne2 : ardStartsWith (commandOf line) strSETINTERVAL = false :=
    startsWith_head_ne _ _ _ (by decide) (by decide) (by decide) h
  unfold V1.processCommand
  rw [if_neg hne1, if_neg (by simp [hne2]), if_pos h]
  constructor
  · rintro ⟨hw, hcnt⟩
    rw [if_pos hw, if_pos hcnt]
    exact ⟨rfl, readRegistry_addState s _⟩
  · rintro (hw | hcnt)
    · rw [if_neg (by simp [hw])]
      exact ⟨rfl, Or.inl rfl⟩
    · by_cases hw2 : V1.addWellFormed (commandOf line) = true
      · rw [if_pos hw2, if_neg (by omega)]
        exact ⟨rfl, Or.inr rfl⟩
      · rw [if_neg hw2]
        exact ⟨rfl, Or.inl rfl⟩

/-- Witness for C4's amended claim: a well-formed ADD_SENSOR on the empty
initial registry. -/
theorem v1_add_sensor_guarded_witness :
    ardStartsWith (commandOf cmdAddGood) strADDSENSOR = true ∧
    ((V1.addWellFormed (commandOf cmdAddGood) = true ∧ initState.sensorCount < maxSensors →
      (V1.processCommand env0 initState cmdAddGood).1.sensorCount = initState.sensorCount + 1 ∧
      readRegistry (V1.processCommand env0 initState cmdAddGood).1 =
        readRegistry initState ++ [V1.addEntry (commandOf cmdAddGood)]) ∧
     (V1.addWellFormed (commandOf cmdAddGood) = false ∨ maxSensors ≤ initState.sensorCount →
      (V1.processCommand env0 initState cmdAddGood).1 = initState ∧
      ((V1.processCommand env0 initState cmdAddGood).2 = [strErrFormat] ∨
       (V1.processCommand env0 initState cmdAddGood).2 = [strErrFull]))) :=
  ⟨by decide, v1_add_sensor_guarded env0 initState cmdAddGood (by decide)⟩

/-- Counterexample to C5 as stated: arduino.ino emits no log line at all when
REMOVE_SENSOR names a pin with no registered sensor (here: pin 7 on the empty
initial registry); the claim requires an error log line. -/
theorem ino_remove_missing_counterexample :
    (Ino.processCommand env0 initState cmdRemove7).2 = ([] : List String) ∧
    (Ino.processCommand env0 initState cmdRemove7).1.sensorCount = 0 := by
  decide

/-- Claim C5 amended (part_001): when no registered sensor has the requested
pin, REMOVE_SENSOR leaves the state unchanged and prints exactly the not-found
error log line. -/
theorem v1_remove_missing_pin (env : Env) (s : FwState) (line : String)
    (h : ardStartsWith (commandOf line) strREMOVESENSOR = true)
    (hnone : ∀ e ∈ readRegistry s, e.pin ≠ removePinArg (commandOf line)) :
    (V1.processCommand env s line).1 = s ∧
    (V1.processCommand env s line).2 =
      [strErrNoSensor ++ toString (removePinArg (commandOf line))] := by
  have hne1 : ¬(commandOf line = strGETDATA) := by
    intro he
    rw [he] at h
    exact absurd h (by decide)
  have hne2 : ardStartsWith (commandOf line) strSETINTERVAL = false :=
    startsWith_head_ne _ _ _ (by decide) (by decide) (by decide) h
  have hne3 : ardStartsWith (commandOf line) strADDSENSOR = false :=
    startsWith_head_ne _ _ _ (by decide) (by decide) (by decide) h
  have hfind : findFrom s (removePinArg (commandOf line)) = none := by
    unfold findFrom
    apply findFromAux_none s _ s.sensorCount 0 (by omega)
    intro j hj
    exact hnone (entryAt s j) (entryAt_mem_readRegistry s j hj)
  unfold V1.processCommand
  rw [if_neg hne1, if_neg (by simp [hne2]), if_neg (by simp [hne3]), if_pos h]
  unfold V1.removeSensor
  rw [hfind]
  exact ⟨rfl, rfl⟩

/-- Witness for C5's amended claim: REMOVE_SENSOR 7 on the empty registry. -/
theorem v1_remove_missing_pin_witness :
    ardStartsWith (commandOf cmdRemove7) strREMOVESENSOR = true ∧
    (∀ e ∈ readRegistry initState, e.pin ≠ removePinArg (commandOf cmdRemove7)) ∧
    ((V1.processCommand env0 initState cmdRemove7).1 = initState ∧
     (V1.processCommand env0 initState cmdRemove7).2 =
       [strErrNoSensor ++ toString (removePinArg (commandOf cmdRemove7))]) :=
  ⟨by decide, by decide,
    v1_remove_missing_pin env0 initState cmdRemove7 (by decide) (by decide)⟩

/-- Counterexample to C6 as stated: part_000 publishes the soil-moisture line
without any sensor id — with every analog read returning 345 the published line
is "sensor/soil" ++ "_moisture 345", which has only two space-separated fields
and therefore not the claimed form `sensor/<type> <sensor_id> <value>`. -/
theorem v0_message_counterexample :
    V0.sendSensorData env345 = [witBadLine] ∧ soilMsgForm witBadLine = false := by
  decide

/-- Claim C6 amended (part_001): every line published by `sendSensorData` is
either a diagnostic log line (prefixed by the log topic) or a data line
`sensor/<type> <id> <values>` where a non-DHT sensor carries exactly the one
raw analog value and a DHT sensor carries humidity and temperature. -/
theorem v1_message_form (env : Env) (s : FwState) (line : String)
    (h : line ∈ V1.sendSensorData env s) :
    (∃ rest, line = strLogPre ++ rest) ∨
    (∃ i, i < s.sensorCount ∧
      ((s.sensorTypes i = strDht ∧
        ∃ hu te, env.dhtRead (s.sensorPins i) = some (hu, te) ∧
          line = strSensorTopic ++ s.sensorTypes i ++ strSpace ++ s.sensorIds i ++
            strSpace ++ hu ++ strSpace ++ te) ∨
       (s.sensorTypes i ≠ strDht ∧
        line = strSensorTopic ++ s.sensorTypes i ++ strSpace ++ s.sensorIds i ++
          strSpace ++ toString (env.analogRead (s.sensorPins i))))) := by
  unfold V1.sendSensorData at h
  rcases List.mem_map.mp h with ⟨i, hi, hline⟩
  have hilt : i < s.sensorCount := List.mem_range.mp hi
  subst hline
  unfold V1.sensorLine
  by_cases ht : s.sensorTypes i = strDht
  · rw [if_pos ht]
    cases hd : env.dhtRead (s.sensorPins i) with
    | none =>
        left
        refine ⟨strErrDhtTail ++ s.sensorIds i, ?_⟩
        rw [← strAppend_assoc]
        rfl
    | some pr =>
        obtain ⟨hu, te⟩ := pr
        right
        exact ⟨i, hilt, Or.inl ⟨ht, hu, te, hd, rfl⟩⟩
  · rw [if_neg ht]
    by_cases hr : env.analogRead (s.sensorPins i) = -1
    · rw [if_pos hr]
      left
      refine ⟨strErrAnalogTail ++ s.sensorIds i, ?_⟩
      rw [← strAppend_assoc]
      rfl
    · rw [if_neg hr]
      right
      exact ⟨i, hilt, Or.inr ⟨ht, rfl⟩⟩

/-- Witness for C6's amended claim: the soil-moisture data line of the sample
one-sensor state. -/
theorem v1_message_form_witness :
    (witGoodLine ∈ V1.sendSensorData env345 sampleState) ∧
    ((∃ rest, witGoodLine = strLogPre ++ rest) ∨
     (∃ i, i < sampleState.sensorCount ∧
       ((sampleState.sensorTypes i = strDht ∧
         ∃ hu te, env345.dhtRead (sampleState.sensorPins i) = some (hu, te) ∧
           witGoodLine = strSensorTopic ++ sampleState.sensorTypes i ++ strSpace ++
             sampleState.sensorIds i ++ strSpace ++ hu ++ strSpace ++ te) ∨
        (sampleState.sensorTypes i ≠ strDht ∧
         witGoodLine = strSensorTopic ++ sampleState.sensorTypes i ++ strSpace ++
           sampleState.sensorIds i ++ strSpace ++
           toString (env345.analogRead (sampleState.sensorPins i)))))) :=
  ⟨by decide, v1_message_form env345 sampleState witGoodLine (by decide)⟩
